import Mathlib

/-!
Verification development for the WiFi connectivity manager
(`backend/boot/wifi.py`, class `WiFiManager`).

The Python code is shallowly embedded: pure string manipulation is
translated to Lean functions over `String` (viewed as its list of
characters), stateful methods become explicit state-passing functions,
and the outcomes of external subprocess invocations are supplied as
explicit environment values.  Python exceptions that escape a handler
are modelled with `Except`.
-/

namespace Vidbox

/-! ### Python string primitives

Helpers mirroring the Python `str` operations used by `wifi.py`:
`in` (substring test), `startswith`, `strip`, `split`, `lower`, `int()`.
All operate on the character list underlying a `String`.
-/

/-- Boolean list-prefix test (mirrors matching a substring at the head). -/
def listIsPfx : List Char → List Char → Bool
  | [], _ => true
  | _ :: _, [] => false
  | p :: ps, c :: cs => p == c && listIsPfx ps cs

/-- Boolean substring-occurrence test over character lists. -/
def listHasSub : List Char → List Char → Bool
  | sub, [] => sub.isEmpty
  | sub, c :: rest => listIsPfx sub (c :: rest) || listHasSub sub rest

/-- Python `sub in s`. -/
def pyContains (s sub : String) : Bool := listHasSub sub.data s.data

/-- Python `s.startswith(pre)`. -/
def pyStartsWith (s pre : String) : Bool := listIsPfx pre.data s.data

/-- Drop characters satisfying `p` from both ends of a list. -/
def stripEnds (p : Char → Bool) (l : List Char) : List Char :=
  ((l.dropWhile p).reverse.dropWhile p).reverse

/-- Python `s.strip()` (whitespace strip). -/
def pyStripWs (s : String) : String := ⟨stripEnds Char.isWhitespace s.data⟩

/-- Python `s.strip('"')`. -/
def pyStripQ (s : String) : String := ⟨stripEnds (fun c => c == '"') s.data⟩

/-- Split a character list at every occurrence of the (non-empty)
separator `c₀ :: sep`, keeping empty groups, exactly like Python
`str.split(sep)` with a non-empty separator.  The `fuel` argument makes
the recursion structural; it is called with `fuel = l.length`, which
always suffices (each step consumes at least one character). -/
def splitListAux (c₀ : Char) (sep : List Char) : Nat → List Char → List (List Char)
  | _, [] => [[]]
  | 0, l => [l]
  | fuel + 1, c :: rest =>
    if listIsPfx (c₀ :: sep) (c :: rest) then
      [] :: splitListAux c₀ sep fuel (rest.drop sep.length)
    else
      match splitListAux c₀ sep fuel rest with
      | [] => [[c]]
      | g :: gs => (c :: g) :: gs

/-- Python `s.split(sep)` for a non-empty separator (`wifi.py` never
splits on an empty separator). -/
def pySplit (s sep : String) : List String :=
  match sep.data with
  | [] => [s]
  | c :: cs => (splitListAux c cs s.data.length s.data).map (fun l => ⟨l⟩)

/-- Python `s.lower()`. -/
def pyLower (s : String) : String := ⟨s.data.map Char.toLower⟩

/-- Value of a non-empty all-digit character list. -/
def digitsVal (l : List Char) : Option Nat :=
  if !l.isEmpty && l.all Char.isDigit then
    some (l.foldl (fun n c => 10 * n + (c.toNat - 48)) 0)
  else
    none

/-- Python `int(s)` on a string: strips whitespace, allows one leading
sign, then requires a non-empty digit run; `none` models `ValueError`. -/
def pyInt (s : String) : Option Int :=
  match stripEnds Char.isWhitespace s.data with
  | '+' :: ds => (digitsVal ds).map Int.ofNat
  | '-' :: ds => (digitsVal ds).map (fun n => -(n : Int))
  | ds => (digitsVal ds).map Int.ofNat


/-! ### `WiFiManager.scan_networks` — the survey parser

One discovered network is the Python dict `current_network`; a key that
was never assigned is `none`.  The dict's truthiness test
(`if current_network:`) becomes `recNonEmpty`.  The parse loop becomes a
fold of `scanStep` over the lines of the scan output; an exception that
escapes to `scan_networks`'s outer handler is `Except.error ()`, which
makes the whole scan return `[]` exactly as the Python `except` clause
does.
-/

/-- One entry of the `networks` list built by `scan_networks`. -/
structure ScanRec where
  bssid : Option String := none
  ssid : Option String := none
  quality : Option Int := none
  encrypted : Option Bool := none
deriving DecidableEq, Repr

/-- Python truthiness of the `current_network` dict: keys are only ever
assigned (never deleted), so the dict is non-empty iff some field is set. -/
def recNonEmpty (r : ScanRec) : Bool :=
  r.bssid.isSome || r.ssid.isSome || r.quality.isSome || r.encrypted.isSome

/-- The expression `int((int(current) / int(max_val)) * 100)`: the true division and the
float-to-int conversion truncate the exact ratio toward zero.  (Python
computes this with binary floats; the exact rational truncation used here
agrees on all the integer ratios appearing in this development.) -/
def pyQuality (c m : Int) : Int := Int.tdiv (100 * c) m

/-- The expression `line.split('Quality=')[1].split(' ')[0]` (the `[1]` index is safe under
the branch guard `'Quality=' in line`, which guarantees two split groups). -/
def qualityToken (line : String) : String :=
  (pySplit ((pySplit line "Quality=").getD 1 "") " ").headD ""

/-- The body of the `try` around the quality parse.  `Except.ok none`
models an `IndexError`/`ValueError` caught by the inner handler (quality
left absent); `Except.error ()` models the `ZeroDivisionError` raised by
`int(current) / int(max_val)` when the maximum is zero, which the inner
handler does **not** catch. -/
def qualityResult (line : String) : Except Unit (Option Int) :=
  let qp := qualityToken line
  if pyContains qp "/" then
    match pySplit qp "/" with
    | [c, m] =>
      match pyInt c with
      | none => Except.ok none
      | some ci =>
        match pyInt m with
        | none => Except.ok none
        | some mi =>
          if mi == 0 then Except.error () else Except.ok (some (pyQuality ci mi))
    | _ => Except.ok none
  else
    Except.ok none

/-- The first branch guard of the parse loop:
`'Cell' in line and 'Address:' in line`. -/
def isCellLine (line : String) : Bool :=
  pyContains line "Cell" && pyContains line "Address:"

/-- Processing of one raw output line by the loop in `scan_networks`.
The state is `(networks, current_network)`.  The line is first stripped
(`line = line.strip()`); the branch structure mirrors the Python
`if`/`elif` chain.  `Except.error ()` is an exception escaping to the
outer handler (an `IndexError` from `line.split('Address: ')[1]`, or a
`ZeroDivisionError` from the quality ratio). -/
def scanStep (st : List ScanRec × ScanRec) (rawLine : String) :
    Except Unit (List ScanRec × ScanRec) :=
  let line := pyStripWs rawLine
  if isCellLine line then
    match (pySplit line "Address: ").get? 1 with
    | none => Except.error ()
    | some b =>
      let nets := if recNonEmpty st.2 then st.1 ++ [st.2] else st.1
      Except.ok (nets, { bssid := some b })
  else if pyContains line "ESSID:" then
    let essid := pyStripQ ((pySplit line "ESSID:").getD 1 "")
    if essid == "" then Except.ok st
    else Except.ok (st.1, { st.2 with ssid := some essid })
  else if pyContains line "Quality=" then
    match qualityResult line with
    | Except.error e => Except.error e
    | Except.ok none => Except.ok st
    | Except.ok (some q) => Except.ok (st.1, { st.2 with quality := some q })
  else if pyContains line "Encryption key:" then
    Except.ok (st.1, { st.2 with encrypted := some (pyContains (pyLower line) "on") })
  else
    Except.ok st

/-- The records accumulated by `scan_networks` in encounter order,
including the final flush of a non-empty `current_network`; `[]` when an
uncaught exception aborts the loop (the outer `except` path). -/
def scanRecords (lines : List String) : List ScanRec :=
  match lines.foldlM scanStep ([], {}) with
  | Except.error _ => []
  | Except.ok (nets, cur) => if recNonEmpty cur then nets ++ [cur] else nets

/-- The sort key `x.get('quality', 0)`. -/
def qualityKey (r : ScanRec) : Int := r.quality.getD 0

/-- Stable insertion of `x` in front of the first element whose key is
not larger — the unique stable descending order, which is what Python's
stable `list.sort(key=..., reverse=True)` produces. -/
def insertDesc (x : ScanRec) : List ScanRec → List ScanRec
  | [] => [x]
  | y :: ys => if qualityKey y ≤ qualityKey x then x :: y :: ys else y :: insertDesc x ys

/-- Stable descending sort by quality, modelling
`networks.sort(key=lambda x: x.get('quality', 0), reverse=True)`. -/
def sortDesc : List ScanRec → List ScanRec
  | [] => []
  | x :: xs => insertDesc x (sortDesc xs)

/-- Model of `WiFiManager.scan_networks`, given the lines of the scan command's
standard output (`result.stdout.split('\n')`). -/
def scan_networks (lines : List String) : List ScanRec :=
  sortDesc (scanRecords lines)



/-! ### `WiFiManager._update_wpa_supplicant` — the config synthesizer

The rewrite loop walks the existing file's lines with four locals:
`new_lines`, `in_network_block`, `network_ssid`, and `current_block`.
`current_block` is only assigned inside the loop, so using it before the
first assignment raises `UnboundLocalError`; that unbound condition is
modelled by `curBlock = none`, and the escaping exception (which makes
the method return `False` without writing) by `Except.error ()`.
-/

/-- The loop state of `_update_wpa_supplicant`. -/
structure WpaState where
  newLines : List String
  inBlock : Bool
  netSsid : Option String
  curBlock : Option (List String)
deriving DecidableEq, Repr

/-- The expression `line.split('=')[1].strip().strip('"')` — how the loop reads the ssid
value out of an `ssid=` line. -/
def parseSsidVal (line : String) : String :=
  pyStripQ (pyStripWs ((pySplit line "=").getD 1 ""))

/-- One iteration of the rewrite loop, for target ssid `target`.  Branches
mirror the Python chain: block open, block close (keep or drop the
accumulated block), in-block line (ssid line restarts the accumulator with
a canonical `'network={\n'` open line; other lines are appended), and
top-level line. -/
def wpaStep (target : String) (st : WpaState) (line : String) :
    Except Unit WpaState :=
  if pyStartsWith (pyStripWs line) "network=\x7b" then
    Except.ok { st with inBlock := true, netSsid := none }
  else if pyStripWs line == "\x7d" && st.inBlock then
    if st.netSsid != some target then
      match st.curBlock with
      | none => Except.error ()
      | some blk =>
        Except.ok { newLines := st.newLines ++ blk ++ [line], inBlock := false,
                    netSsid := st.netSsid, curBlock := some [] }
    else
      Except.ok { st with inBlock := false, curBlock := some [] }
  else if st.inBlock then
    if pyStartsWith (pyStripWs line) "ssid=" then
      Except.ok { st with netSsid := some (parseSsidVal line),
                          curBlock := some ["network=\x7b\n", line] }
    else
      match st.curBlock with
      | none => Except.error ()
      | some blk => Except.ok { st with curBlock := some (blk ++ [line]) }
  else
    Except.ok { st with newLines := st.newLines ++ [line] }

/-- The lines appended for the new network block (`writelines` only
concatenates, so the leading blank line lives inside the first string,
exactly as in the source). -/
def newBlockLines (ssid password : String) : List String :=
  ["\nnetwork=\x7b\n",
   "    ssid=\"" ++ ssid ++ "\"\n",
   if password != "" then "    psk=\"" ++ password ++ "\"\n" else "    key_mgmt=NONE\n",
   "    priority=1\n",
   "\x7d\n"]

/-- Model of `WiFiManager._update_wpa_supplicant`, phrased on the list of lines of
the existing configuration file (a missing file reads as `[]`); returns
the lines written back, or `Except.error ()` when an exception makes the
method return `False` without completing the write. -/
def update_wpa_supplicant (configLines : List String) (ssid password : String) :
    Except Unit (List String) :=
  match configLines.foldlM (wpaStep ssid) ⟨[], false, none, none⟩ with
  | Except.error e => Except.error e
  | Except.ok st => Except.ok (st.newLines ++ newBlockLines ssid password)



/-! ### The `WiFiManager` state machine

`WiFiManager`'s mutable fields become `WifiState`.  Each external
`subprocess.run` invocation is given its outcome through an environment
record: `RunRes.ok code` is a completed process with that return code,
`RunRes.timeout` a raised `subprocess.TimeoutExpired`, and
`RunRes.missing` a raised `FileNotFoundError`.  `time.sleep` calls have
no modelled effect.
-/

/-- Modelled from the spec: the `WiFiConfig` schema object
(`config/schema.py` is not part of the analysed sources).  §3 of the spec
lists the last-configured client credentials plus the hotspot parameters
used by `start_hotspot`. -/
structure WiFiConfig where
  ssid : String
  password : String
  hotspot_ssid : String
  hotspot_password : String
  hotspot_channel : Nat
deriving DecidableEq, Repr

/-- The mutable fields initialised in `WiFiManager.__init__`. -/
structure WifiState where
  connected : Bool
  hotspot_active : Bool
  current_ssid : Option String
  ip_address : Option String
  config : WiFiConfig
deriving DecidableEq, Repr

/-- Method `__init__`: `connected = False`, `hotspot_active = False`,
`current_ssid = None`, `ip_address = None`. -/
def initState (c : WiFiConfig) : WifiState :=
  { connected := false, hotspot_active := false, current_ssid := none,
    ip_address := none, config := c }

/-- Outcome of one `subprocess.run` invocation. -/
inductive RunRes where
  | ok (code : Int)
  | timeout
  | missing
deriving DecidableEq, Repr

/-- The external commands `stop_hotspot` can issue, in source order. -/
inductive Cmd where
  | script
  | dhcpcd
  | hostapd
  | dnsmasq
  | ipflush
deriving DecidableEq, Repr

/-- Outcomes of the external invocations made by `stop_hotspot`:
the helper script (`hotspot.sh stop`, timeout 30), the best-effort
`systemctl restart dhcpcd` (timeout 10), and the three `check=True`
manual-fallback commands.  The fallback commands run without a timeout,
so their `RunRes.timeout` outcome cannot occur; they are nevertheless
mapped faithfully (a raise is a raise). -/
structure StopEnv where
  script : RunRes
  dhcpcd : RunRes
  hostapd : RunRes
  dnsmasq : RunRes
  ipflush : RunRes

/-- Did this `check=True` invocation raise?  Non-zero exit raises
`CalledProcessError`; `timeout`/`missing` raise their own exceptions.
All of them are caught by `stop_hotspot`'s `except` clause. -/
def raisesChecked : RunRes → Bool
  | RunRes.ok code => code != 0
  | RunRes.timeout => true
  | RunRes.missing => true

/-- Model of `WiFiManager.stop_hotspot`.  Returns the final state, the boolean
result, and the trace of commands issued (a command is in the trace iff
its `subprocess.run` line was reached).  Every path clears
`hotspot_active`: the success path clears it before the dhcpcd restart,
the manual fallback clears it after its three commands, and the `except`
clause clears it again on any caught exception. -/
def stop_hotspot (st : WifiState) (env : StopEnv) : WifiState × Bool × List Cmd :=
  let cleared : WifiState := { st with hotspot_active := false }
  match env.script with
  | RunRes.timeout => (cleared, false, [Cmd.script])
  | RunRes.missing => (cleared, false, [Cmd.script])
  | RunRes.ok code =>
    if code == 0 then
      -- success path: flag cleared, then best-effort dhcpcd restart
      match env.dhcpcd with
      | RunRes.ok _ => (cleared, true, [Cmd.script, Cmd.dhcpcd])
      | RunRes.timeout => (cleared, false, [Cmd.script, Cmd.dhcpcd])
      | RunRes.missing => (cleared, false, [Cmd.script, Cmd.dhcpcd])
    else
      -- manual fallback, each command with check=True
      if raisesChecked env.hostapd then
        (cleared, false, [Cmd.script, Cmd.hostapd])
      else if raisesChecked env.dnsmasq then
        (cleared, false, [Cmd.script, Cmd.hostapd, Cmd.dnsmasq])
      else if raisesChecked env.ipflush then
        (cleared, false, [Cmd.script, Cmd.hostapd, Cmd.dnsmasq, Cmd.ipflush])
      else
        (cleared, false, [Cmd.script, Cmd.hostapd, Cmd.dnsmasq, Cmd.ipflush])

/-- Outcome of the `hotspot.sh start` invocation (non-zero exit, timeout,
missing script and `PermissionError` all produce a `False` return with no
state change; the latter two collapse onto `timeout`/`missing`). -/
structure StartEnv where
  script : RunRes

/-- Model of `WiFiManager.start_hotspot` (the `os.access` permission probe only
logs and is not modelled). -/
def start_hotspot (st : WifiState) (env : StartEnv) : WifiState × Bool :=
  match env.script with
  | RunRes.ok code =>
    if code == 0 then
      ({ st with hotspot_active := true, connected := false,
                 current_ssid := none, ip_address := some "192.168.24.1" }, true)
    else (st, false)
  | RunRes.timeout => (st, false)
  | RunRes.missing => (st, false)

/-- The dict built by `get_current_network_info` on one poll: current
ssid, IPv4 address and signal token, each independently optional. -/
structure LinkInfo where
  ssid : Option String
  ip : Option String
  signal : Option String

/-- The derived `'connected'` entry:
`current_ssid is not None and ip_address is not None`. -/
def linkConnected (li : LinkInfo) : Bool := li.ssid.isSome && li.ip.isSome

/-- Environment of one `connect_to_network` call: the `stop_hotspot`
sub-environment (used only when a hotspot is active), whether the
`_update_wpa_supplicant` call returned `True`, whether one of the
fire-and-forget service commands (`systemctl restart wpa_supplicant`,
`wpa_cli reconfigure`) raised, and the `LinkInfo` observed by the
`attempt`-th poll. -/
structure ConnectEnv where
  stopEnv : StopEnv
  wpaOk : Bool
  svcRaise : Bool
  polls : Nat → LinkInfo

/-- Index of the first of the 30 polls satisfying
`network_info.get('connected') and network_info.get('ssid') == ssid`. -/
def firstMatch (polls : Nat → LinkInfo) (ssid : String) : Option Nat :=
  (List.range 30).find? (fun i => linkConnected (polls i) && (polls i).ssid == some ssid)

/-- The state after the initial `if self.hotspot_active: self.stop_hotspot()`
step of `connect_to_network` (the stop's own result is only logged). -/
def afterStop (st : WifiState) (env : ConnectEnv) : WifiState :=
  if st.hotspot_active then (stop_hotspot st env.stopEnv).1 else st

/-- Model of `WiFiManager.connect_to_network`.  On the first matching poll the
success fields are assigned and the credentials are stored in
`self.config`; a config-write failure, a raised service command or poll
exhaustion fall through to `return False` with no further field writes. -/
def connect_to_network (st : WifiState) (env : ConnectEnv) (ssid password : String) :
    WifiState × Bool :=
  let st1 := afterStop st env
  if !env.wpaOk then (st1, false)
  else if env.svcRaise then (st1, false)
  else
    match firstMatch env.polls ssid with
    | some i =>
      ({ st1 with connected := true, current_ssid := some ssid,
                  ip_address := (env.polls i).ip, hotspot_active := false,
                  config := { st1.config with ssid := ssid, password := password } },
       true)
    | none => (st1, false)

/-- Model of `WiFiManager.connect`: no-op failure when no ssid is configured
(Python truthiness of `self.config.ssid`: the empty string is falsy),
else delegate to `connect_to_network` with the stored credentials. -/
def connect (st : WifiState) (env : ConnectEnv) : WifiState × Bool :=
  if st.config.ssid == "" then (st, false)
  else connect_to_network st env st.config.ssid st.config.password

/-- Model of `WiFiManager.cleanup`: stop the hotspot if one is active. -/
def cleanup (st : WifiState) (env : StopEnv) : WifiState :=
  if st.hotspot_active then (stop_hotspot st env).1 else st

/-- One public call together with the outcomes of its external
invocations.  `get_status` builds a dict from the fields and a fresh
probe but writes nothing, so its state transition is the identity. -/
inductive Op where
  | connectTo (ssid password : String) (env : ConnectEnv)
  | connectCfg (env : ConnectEnv)
  | startHs (env : StartEnv)
  | stopHs (env : StopEnv)
  | getStatus
  | doCleanup (env : StopEnv)

/-- State transition of one public call. -/
def applyOp (st : WifiState) : Op → WifiState
  | Op.connectTo s p e => (connect_to_network st e s p).1
  | Op.connectCfg e => (connect st e).1
  | Op.startHs e => (start_hotspot st e).1
  | Op.stopHs e => (stop_hotspot st e).1
  | Op.getStatus => st
  | Op.doCleanup e => cleanup st e

/-! ### Concrete fixtures used by counterexamples and witnesses -/

/-- A sample configuration. -/
def cfg0 : WiFiConfig :=
  { ssid := "", password := "", hotspot_ssid := "LOOP", hotspot_password := "loop1234",
    hotspot_channel := 6 }

/-- The freshly initialised (Disconnected) manager state. -/
def dcState : WifiState := initState cfg0

/-- A state in hotspot mode. -/
def hsState : WifiState := { dcState with hotspot_active := true }

/-- A state connected as a client of network `"Old"`. -/
def clientState : WifiState :=
  { dcState with connected := true, current_ssid := some "Old",
                 ip_address := some "10.0.0.5" }

/-- A stop environment in which every command completes successfully. -/
def stopEnvOk : StopEnv :=
  { script := RunRes.ok 0, dhcpcd := RunRes.ok 0, hostapd := RunRes.ok 0,
    dnsmasq := RunRes.ok 0, ipflush := RunRes.ok 0 }

/-- The claimed state invariant (claim C3): the Client flag and the
Hotspot flag are never both set, and a current ssid is recorded only in
Client mode. -/
def Inv (st : WifiState) : Prop :=
  ¬(st.connected = true ∧ st.hotspot_active = true) ∧
  (∀ s, st.current_ssid = some s → st.connected = true)

/-! ### Well-formed scan stanzas (claim C6)

A well-formed stanza is one cell-marker line followed by body lines that
neither open a new stanza nor raise: the cell line classifies into the
`Cell`/`Address:` branch and its `'Address: '` split has the index-1
group the code reads; body lines fall into the other branches, with a
quality line that does not divide by zero.
-/

/-- Does processing this raw line raise an exception that escapes to
`scan_networks`'s outer handler?  (`IndexError` in the cell branch,
`ZeroDivisionError` in the quality branch — nothing else raises.) -/
def lineAborts (rawLine : String) : Bool :=
  let l := pyStripWs rawLine
  if isCellLine l then ((pySplit l "Address: ").get? 1).isNone
  else if pyContains l "ESSID:" then false
  else if pyContains l "Quality=" then
    match qualityResult l with
    | Except.error _ => true
    | Except.ok _ => false
  else false

/-- A body line of a well-formed stanza: not a cell marker, and raising
nothing. -/
def goodBodyLine (b : String) : Bool :=
  !isCellLine (pyStripWs b) && !lineAborts b

/-- A stanza of the raw scan text: its cell-marker line and its body
lines. -/
structure StanzaL where
  cell : String
  body : List String

/-- The stanza's lines in text order. -/
def stanzaLines (s : StanzaL) : List String := s.cell :: s.body

/-- Well-formedness of one stanza. -/
def goodStanza (s : StanzaL) : Bool :=
  isCellLine (pyStripWs s.cell) &&
  ((pySplit (pyStripWs s.cell) "Address: ").get? 1).isSome &&
  s.body.all goodBodyLine

/-- Non-increasing quality down the list (adjacent comparison). -/
def SortedDescBy (l : List ScanRec) : Prop :=
  List.Chain' (fun a b => qualityKey b ≤ qualityKey a) l

/-- The list `l'` contains, for every quality value, exactly the records of `l`
with that quality and in `l`'s order — the stability property of the
final sort with respect to encounter order. -/
def StableWith (l l' : List ScanRec) : Prop :=
  ∀ q : Int, l'.filter (fun r => qualityKey r == q) = l.filter (fun r => qualityKey r == q)

/-! ### Well-formed configuration texts (claim C4)

A well-formed configuration is a sequence of top-level lines and blocks
whose concrete shape matches what `_update_wpa_supplicant` itself emits:
an open line that is exactly `'network={\n'`, an ssid line first, payload
lines that are neither delimiters nor ssid lines, and a `'}\n'` close
line.  The well-formedness conditions below are stated directly as the
branch guards the rewrite loop evaluates, so each is decidable on a
concrete input.
-/

/-- One item of a block-structured configuration: an opaque top-level
line, or a network block with its ssid and its payload lines. -/
inductive CfgItem where
  | top (l : String)
  | block (ssid : String) (payload : List String)

/-- The ssid line the synthesizer writes for ssid `s`. -/
def ssidLine (s : String) : String := "    ssid=\"" ++ s ++ "\"\n"

/-- The concrete lines of one configuration item. -/
def itemLines : CfgItem → List String
  | CfgItem.top l => [l]
  | CfgItem.block s payload =>
      "network=\x7b\n" :: ssidLine s :: (payload ++ ["\x7d\n"])

/-- The concrete lines of a configuration. -/
def cfgLines (items : List CfgItem) : List String := (items.map itemLines).flatten

/-- A top-level line must not open a block (it may be anything else,
including blank lines and comments). -/
def goodTop (l : String) : Bool := !pyStartsWith (pyStripWs l) "network=\x7b"

/-- A payload line must stay inside its block: it neither opens a block,
nor closes one, nor is an ssid line. -/
def goodPayloadLine (l : String) : Bool :=
  !pyStartsWith (pyStripWs l) "network=\x7b" && !(pyStripWs l == "\x7d") &&
  !pyStartsWith (pyStripWs l) "ssid="

/-- Well-formedness of one item.  For a block: the ssid line classifies
into the ssid branch (and no earlier branch), its value parses back to
the block's ssid, and every payload line is a payload line. -/
def goodItem : CfgItem → Bool
  | CfgItem.top l => goodTop l
  | CfgItem.block s payload =>
      pyStartsWith (pyStripWs (ssidLine s)) "ssid=" &&
      !pyStartsWith (pyStripWs (ssidLine s)) "network=\x7b" &&
      !(pyStripWs (ssidLine s) == "\x7d") &&
      (parseSsidVal (ssidLine s) == s) &&
      payload.all goodPayloadLine

/-- Is this item kept by a rewrite targeting ssid `t`?  (Top-level lines
always; blocks exactly when their ssid differs.) -/
def keepItem (t : String) : CfgItem → Bool
  | CfgItem.top _ => true
  | CfgItem.block s _ => s != t

/-- The lines of the items surviving a rewrite targeting `t`, in original
order and byte-for-byte. -/
def keptLines (t : String) (items : List CfgItem) : List String :=
  ((items.filter (keepItem t)).map itemLines).flatten

/-- An existing configuration whose second block has a `scan_ssid=` line
*before* its ssid line. -/
def c4lines : List String :=
  ["network=\x7b\n", "    ssid=\"A\"\n", "\x7d\n",
   "network=\x7b\n", "    scan_ssid=1\n", "    ssid=\"Other\"\n", "\x7d\n"]

/-- What the rewrite of `c4lines` targeting `"Mine"` actually writes: the
`scan_ssid=1` line of the `Other` block has been dropped, because the
ssid line resets the accumulator to `['network={\n', line]`. -/
def c4out : List String :=
  ["network=\x7b\n", "    ssid=\"A\"\n", "\x7d\n",
   "network=\x7b\n", "    ssid=\"Other\"\n", "\x7d\n",
   "\nnetwork=\x7b\n", "    ssid=\"Mine\"\n", "    psk=\"pw\"\n",
   "    priority=1\n", "\x7d\n"]

/-- A well-formed configuration: two blocks around a top-level line. -/
def c4items : List CfgItem :=
  [CfgItem.block "A" [], CfgItem.top "update_config=1\n",
   CfgItem.block "Home" ["    psk=\"old\"\n"]]

/-! ### Helper lemmas about `stop_hotspot` -/

/-- Whatever the outcomes of the external commands, the state produced by
`stop_hotspot` is the input state with `hotspot_active` cleared. -/
theorem stop_hotspot_state (st : WifiState) (env : StopEnv) :
    (stop_hotspot st env).1 = { st with hotspot_active := false } := by
  unfold stop_hotspot
  cases env.script with
  | timeout => rfl
  | missing => rfl
  | ok code =>
    dsimp only
    split
    · cases env.dhcpcd <;> rfl
    · split
      · rfl
      · split
        · rfl
        · split <;> rfl

/-- The helper `afterStop` never touches the stored credentials. -/
theorem afterStop_config (st : WifiState) (env : ConnectEnv) :
    (afterStop st env).config = st.config := by
  unfold afterStop
  split
  · rw [stop_hotspot_state]
  · rfl

/-! ### Claim C2 -/

/-- C2: for every starting state and every outcome of the external helper
(exit 0, non-zero exit, timeout, or missing script — and every outcome of
the follow-up commands), after `stop_hotspot` returns the mode is not
Hotspot: `hotspot_active` is `false`. -/
theorem stop_hotspot_never_leaves_hotspot (st : WifiState) (env : StopEnv) :
    (stop_hotspot st env).1.hotspot_active = false := by
  rw [stop_hotspot_state]

/-! ### Claim C8 -/

/-- C8 counterexample: the helper script reports failure (exit 1) and the
first manual fallback command (`systemctl stop hostapd`, run with
`check=True`) also fails (exit 1).  Its `CalledProcessError` escapes to
the `except` clause, so the DHCP/DNS stop and the address flush are never
issued — the trace ends at `hostapd` — refuting "each issued even if an
earlier one of the three fails".  The call does report `false` with the
flag cleared. -/
theorem stop_hotspot_fallback_cex :
    stop_hotspot hsState
      { script := RunRes.ok 1, dhcpcd := RunRes.ok 0, hostapd := RunRes.ok 1,
        dnsmasq := RunRes.ok 0, ipflush := RunRes.ok 0 } =
      ({ hsState with hotspot_active := false }, false, [Cmd.script, Cmd.hostapd]) ∧
    Cmd.dnsmasq ∉ [Cmd.script, Cmd.hostapd] ∧
    Cmd.ipflush ∉ [Cmd.script, Cmd.hostapd] := by
  decide

/-- C8 amended: when the helper reports failure on stop, the manual
fallback commands are issued in order but only until the first one that
fails (each runs with `check=True`, so its exception aborts the rest);
in every case the call reports `false` with the hotspot flag cleared. -/
theorem stop_hotspot_fallback_sequence (st : WifiState) (env : StopEnv) (code : Int)
    (hs : env.script = RunRes.ok code) (hc : ¬code = 0) :
    (stop_hotspot st env).2.1 = false ∧
    (stop_hotspot st env).1.hotspot_active = false ∧
    Cmd.hostapd ∈ (stop_hotspot st env).2.2 ∧
    (raisesChecked env.hostapd = false → Cmd.dnsmasq ∈ (stop_hotspot st env).2.2) ∧
    (raisesChecked env.hostapd = false → raisesChecked env.dnsmasq = false →
      Cmd.ipflush ∈ (stop_hotspot st env).2.2) ∧
    (raisesChecked env.hostapd = true → Cmd.dnsmasq ∉ (stop_hotspot st env).2.2) := by
  unfold stop_hotspot
  rw [hs]
  simp only [beq_iff_eq, hc, if_false]
  by_cases h1 : raisesChecked env.hostapd <;> simp only [h1, if_true, if_false] <;>
    by_cases h2 : raisesChecked env.dnsmasq <;> simp only [h2, if_true, if_false] <;>
      by_cases h3 : raisesChecked env.ipflush <;> simp_all

/-- C8 witness: the amended sequencing theorem applied to a concrete
environment in which the helper fails and all fallback commands succeed. -/
theorem stop_hotspot_fallback_sequence_witness :
    (stop_hotspot hsState { stopEnvOk with script := RunRes.ok 1 }).2.1 = false ∧
    Cmd.ipflush ∈ (stop_hotspot hsState { stopEnvOk with script := RunRes.ok 1 }).2.2 := by
  have h := stop_hotspot_fallback_sequence hsState
    { stopEnvOk with script := RunRes.ok 1 } 1 rfl (by decide)
  exact ⟨h.1, h.2.2.2.2.1 (by decide) (by decide)⟩

/-! ### Claim C9 -/

/-- C9 counterexample: the helper script succeeds (exit 0) but the
best-effort `systemctl restart dhcpcd` times out.  Its
`subprocess.TimeoutExpired` escapes to the `except` clause and the call
returns `false`, refuting "returns true regardless of the outcome
(including failure or timeout) of the restart". -/
theorem stop_hotspot_success_cex :
    (stop_hotspot hsState { stopEnvOk with dhcpcd := RunRes.timeout }).2.1 = false := by
  decide

/-- C9 amended: when the helper succeeds on stop, the call returns `true`
regardless of the *exit code* of the dhcpcd restart; but if that restart
raises (timeout or missing binary) the exception is caught by the outer
handler and the call returns `false`.  The hotspot flag is cleared either
way. -/
theorem stop_hotspot_success_result (st : WifiState) (env : StopEnv)
    (hs : env.script = RunRes.ok 0) :
    (∀ c, env.dhcpcd = RunRes.ok c → (stop_hotspot st env).2.1 = true) ∧
    (env.dhcpcd = RunRes.timeout → (stop_hotspot st env).2.1 = false) ∧
    (env.dhcpcd = RunRes.missing → (stop_hotspot st env).2.1 = false) ∧
    (stop_hotspot st env).1.hotspot_active = false := by
  refine ⟨?_, ?_, ?_, by rw [stop_hotspot_state]⟩ <;>
    unfold stop_hotspot <;> rw [hs] <;> simp only [if_true, beq_self_eq_true]
  · intro c hd
    rw [hd]
  · intro hd
    rw [hd]
  · intro hd
    rw [hd]

/-- C9 witness: the amended theorem at a concrete environment where the
helper succeeds and the restart completes with exit code 2. -/
theorem stop_hotspot_success_result_witness :
    (stop_hotspot hsState { stopEnvOk with dhcpcd := RunRes.ok 2 }).2.1 = true := by
  exact (stop_hotspot_success_result hsState
    { stopEnvOk with dhcpcd := RunRes.ok 2 } rfl).1 2 rfl

/-! ### Claim C10 -/

/-- C10: the stored credentials `config.ssid` / `config.password` are
written by `connect_to_network` exactly on the success path (after a
matching poll); on every failure path — configuration-write failure,
raised service command, or poll exhaustion — they are unchanged. -/
theorem connect_config_update_iff_success (st : WifiState) (env : ConnectEnv)
    (ssid password : String) :
    (connect_to_network st env ssid password).1.config =
      (if (connect_to_network st env ssid password).2 then
        { st.config with ssid := ssid, password := password }
      else st.config) := by
  unfold connect_to_network
  by_cases hw : env.wpaOk <;> simp only [hw, Bool.not_true, Bool.not_false, if_true, if_false]
  · by_cases hs : env.svcRaise <;> simp only [hs, if_true, if_false]
    · exact afterStop_config st env
    · cases h : firstMatch env.polls ssid with
      | some i => simp [afterStop_config st env]
      | none => simp [afterStop_config st env]
  · exact afterStop_config st env

/-! ### Claim C1 -/

/-- C1 counterexample: `connect_to_network` is called from a Client state
(connected to `"Old"`), the configuration write succeeds, and none of the
30 polls reports the requested ssid `"New"`.  The call returns `false`,
but the state is the untouched Client state — `connected` is still `true`
and `current_ssid` is `"Old"` — not Disconnected as the claim requires. -/
theorem connect_timeout_not_disconnected_cex :
    connect_to_network clientState
      { stopEnv := stopEnvOk, wpaOk := true, svcRaise := false,
        polls := fun _ => { ssid := none, ip := none, signal := none } }
      "New" "pw" = (clientState, false) ∧
    clientState.connected = true ∧
    clientState.current_ssid = some "Old" := by
  decide

/-- C1 amended: with a successful configuration write and non-raising
service commands, `connect_to_network` transitions to
Client(ssid, ip-from-the-matching-poll), persists the credentials and
returns `true` exactly when one of the 30 one-second polls observes
`connected=true` with the requested ssid; if all 30 polls fail to match,
it returns `false` and leaves the state exactly as it was after the
initial hotspot-stop step — in particular still Disconnected when the
call began Disconnected, but *not* reset to Disconnected from a previous
Client state. -/
theorem connect_poll_outcome (st : WifiState) (env : ConnectEnv) (ssid password : String)
    (hw : env.wpaOk = true) (hs : env.svcRaise = false) :
    (∀ i, firstMatch env.polls ssid = some i →
      connect_to_network st env ssid password =
        ({ afterStop st env with
           connected := true, current_ssid := some ssid,
           ip_address := (env.polls i).ip, hotspot_active := false,
           config := { st.config with ssid := ssid, password := password } }, true)) ∧
    (firstMatch env.polls ssid = none →
      connect_to_network st env ssid password = (afterStop st env, false)) ∧
    (st.hotspot_active = false → firstMatch env.polls ssid = none →
      connect_to_network st env ssid password = (st, false)) := by
  have hcfg : (afterStop st env).config = st.config := afterStop_config st env
  refine ⟨?_, ?_, ?_⟩
  · intro i hi
    unfold connect_to_network
    simp [hw, hs, hi, hcfg]
  · intro hn
    unfold connect_to_network
    simp [hw, hs, hn]
  · intro hh hn
    unfold connect_to_network
    simp only [hw, hs, hn]
    unfold afterStop
    rw [hh]
    simp

/-! ### Claim C5 -/

/-- C5 counterexample: a scan text whose first stanza carries the quality
token `5/0` — a malformed ratio with a zero maximum.  Both parts parse as
integers, so the inner `except (IndexError, ValueError)` does not fire;
the division raises `ZeroDivisionError`, which escapes to the outer
handler, and the whole scan returns `[]`.  The claim instead requires the
stanza to yield a record with quality absent and the remaining stanza
(`Beta`) to be scanned normally — i.e. two records, not an empty result. -/
theorem zero_max_quality_aborts_scan_cex :
    scan_networks
      ["Cell 01 - Address: AA:BB:CC:DD:EE:01", "          ESSID:\"Alpha\"",
       "          Quality=5/0  Signal level=-40 dBm",
       "Cell 02 - Address: AA:BB:CC:DD:EE:02", "          ESSID:\"Beta\""] = [] ∧
    (scan_networks
      ["Cell 01 - Address: AA:BB:CC:DD:EE:01", "          ESSID:\"Alpha\"",
       "Cell 02 - Address: AA:BB:CC:DD:EE:02", "          ESSID:\"Beta\""]).length = 2 := by
  decide

theorem except_bind_error {ε α β : Type} (e : ε) (f : α → Except ε β) :
    ((Except.error e : Except ε α) >>= f) = Except.error e := rfl

theorem except_bind_ok {ε α β : Type} (a : α) (f : α → Except ε β) :
    ((Except.ok a : Except ε α) >>= f) = f a := rfl

/-- C5 amended: a stanza line whose quality ratio token fails integer
parsing (or does not split into exactly two parts) yields an absent
`quality` — the record is unchanged and the scan continues exactly as if
the line were not there.  (A ratio whose two parts both parse as integers
with a zero maximum instead raises `ZeroDivisionError`, aborting the scan
with an empty result — see the counterexample.) -/
theorem malformed_quality_skipped (line : String) (st : List ScanRec × ScanRec)
    (pre post : List String)
    (h1 : isCellLine (pyStripWs line) = false)
    (h2 : pyContains (pyStripWs line) "ESSID:" = false)
    (h3 : pyContains (pyStripWs line) "Quality=" = true)
    (h4 : ∀ c m, pySplit (qualityToken (pyStripWs line)) "/" = [c, m] →
          pyInt c = none ∨ pyInt m = none) :
    scanStep st line = Except.ok st ∧
    scanRecords (pre ++ line :: post) = scanRecords (pre ++ post) := by
  have hq : qualityResult (pyStripWs line) = Except.ok none := by
    unfold qualityResult
    by_cases hsl : pyContains (qualityToken (pyStripWs line)) "/"
    · simp only [hsl, if_true]
      cases hsp : pySplit (qualityToken (pyStripWs line)) "/" with
      | nil => rfl
      | cons a tl =>
        cases tl with
        | nil => rfl
        | cons b tl2 =>
          cases tl2 with
          | nil =>
            rcases h4 a b hsp with hca | hcb
            · simp [hca]
            · cases hpa : pyInt a with
              | none => simp [hpa]
              | some ci => simp [hpa, hcb]
          | cons c2 tl3 => rfl
    · simp only [hsl, if_false]
      simp
  have hstep : ∀ s : List ScanRec × ScanRec, scanStep s line = Except.ok s := by
    intro s
    unfold scanStep
    simp only [h1, h2, h3, hq, if_false, if_true, Bool.false_eq_true]
  refine ⟨hstep st, ?_⟩
  unfold scanRecords
  rw [List.foldlM_append, List.foldlM_append]
  cases hp : List.foldlM scanStep (([], {}) : List ScanRec × ScanRec) pre with
  | error e => simp only [hp, except_bind_error]
  | ok s => simp only [hp, except_bind_ok, List.foldlM_cons, hstep s]

/-- C5 witness: the amended theorem applied to a quality line whose ratio
token `abc/70` has a non-integer numerator; the surrounding one-stanza
scan is unaffected by the line. -/
theorem malformed_quality_skipped_witness :
    scanStep ([], { bssid := some "AA" }) "Quality=abc/70  Signal level=-40 dBm" =
      Except.ok ([], { bssid := some "AA" }) ∧
    scanRecords
      ["Cell 01 - Address: AA", "Quality=abc/70  Signal level=-40 dBm"] =
    scanRecords ["Cell 01 - Address: AA"] := by
  have h := malformed_quality_skipped "Quality=abc/70  Signal level=-40 dBm"
    ([], { bssid := some "AA" }) ["Cell 01 - Address: AA"] []
    (by decide) (by decide) (by decide)
    (by intro c m hcm
        left
        have : c = "abc" := by
          have h2 : pySplit (qualityToken (pyStripWs "Quality=abc/70  Signal level=-40 dBm")) "/" = ["abc", "70"] := by decide
          rw [h2] at hcm
          exact (List.cons.injEq _ _ _ _ ▸ hcm).1.symm ▸ rfl
        rw [this]
        decide)
  exact h

/-! ### Claim C7 -/

/-- C7 counterexample: a stanza whose quality ratio is `200/70` — current
exceeds the maximum.  The computed percentage is `int((200/70)*100) = 285`,
which the parser stores unclamped, so the returned record's quality is not
within 0–100. -/
theorem quality_over_100_cex :
    scan_networks ["Cell 01 - Address: AA", "Quality=200/70  Signal level=-40 dBm"] =
      [{ bssid := some "AA", quality := some 285 }] ∧
    ¬((285 : Int) ≤ 100) := by
  decide

/-- C7 amended: the stored quality is `int((current/max)*100)` with no
clamping; it lies within 0–100 exactly for the ratios the radio normally
reports (`0 ≤ current ≤ max`, `max > 0`).  Ratios with `current > max`
exceed 100 and negative currents give negative values. -/
theorem quality_in_range (c m : Int) (h0 : 0 ≤ c) (h1 : c ≤ m) (h2 : 0 < m) :
    0 ≤ pyQuality c m ∧ pyQuality c m ≤ 100 := by
  constructor
  · exact Int.tdiv_nonneg (by omega) (by omega)
  · unfold pyQuality
    rw [Int.tdiv_eq_ediv (by omega) (by omega)]
    exact Int.ediv_le_of_le_mul h2 (by nlinarith)

/-- C7 witness: the range theorem at the ratio 60/70 (and the value the
parser actually stores for it). -/
theorem quality_in_range_witness :
    (0 ≤ pyQuality 60 70 ∧ pyQuality 60 70 ≤ 100) ∧ pyQuality 60 70 = 85 := by
  exact ⟨quality_in_range 60 70 (by decide) (by decide) (by decide), by decide⟩

/-! ### Claim C3 -/

theorem inv_stop_hotspot (st : WifiState) (env : StopEnv) (h : Inv st) :
    Inv (stop_hotspot st env).1 := by
  rw [stop_hotspot_state]
  exact ⟨fun hc => by simp at hc, fun s hs => h.2 s hs⟩

theorem inv_afterStop (st : WifiState) (env : ConnectEnv) (h : Inv st) :
    Inv (afterStop st env) := by
  unfold afterStop
  split
  · exact inv_stop_hotspot st env.stopEnv h
  · exact h

theorem inv_connect_to_network (st : WifiState) (env : ConnectEnv) (s p : String)
    (h : Inv st) : Inv (connect_to_network st env s p).1 := by
  have h1 := inv_afterStop st env h
  unfold connect_to_network
  cases hw : env.wpaOk with
  | false => simpa using h1
  | true =>
    cases hs : env.svcRaise with
    | true => simpa using h1
    | false =>
      cases hm : firstMatch env.polls s with
      | none => simpa using h1
      | some i =>
        simp only [hm, Bool.not_true, Bool.false_eq_true, if_false]
        exact ⟨fun hc => by simp at hc, fun _ _ => rfl⟩

theorem inv_applyOp (st : WifiState) (op : Op) (h : Inv st) : Inv (applyOp st op) := by
  cases op with
  | connectTo s p e => exact inv_connect_to_network st e s p h
  | connectCfg e =>
    dsimp [applyOp, connect]
    split
    · exact h
    · exact inv_connect_to_network st e st.config.ssid st.config.password h
  | startHs e =>
    dsimp [applyOp]
    unfold start_hotspot
    cases e.script with
    | timeout => exact h
    | missing => exact h
    | ok code =>
      dsimp only
      split
      · exact ⟨fun hc => by simp at hc, fun s hs => by simp at hs⟩
      · exact h
  | stopHs e => exact inv_stop_hotspot st e h
  | getStatus => exact h
  | doCleanup e =>
    dsimp [applyOp, cleanup]
    split
    · exact inv_stop_hotspot st e h
    · exact h

/-- C3: in every state reachable from the initial Disconnected state by
any sequence of `connect_to_network`, `connect`, `start_hotspot`,
`stop_hotspot`, `get_status` and `cleanup` calls, with any outcomes of
the external commands, `connected` and `hotspot_active` are never both
`true`, and `current_ssid` is non-null only when the mode is Client
(`connected = true`). -/
theorem inv_foldl (ops : List Op) (st : WifiState) (h : Inv st) :
    Inv (ops.foldl applyOp st) := by
  induction ops generalizing st with
  | nil => exact h
  | cons op rest ih =>
    rw [List.foldl_cons]
    exact ih _ (inv_applyOp st op h)

theorem wifi_state_invariant (ops : List Op) (c : WiFiConfig) :
    Inv (ops.foldl applyOp (initState c)) :=
  inv_foldl ops (initState c)
    ⟨fun hc => by simp [initState] at hc, fun s hs => by simp [initState] at hs⟩

/-! ### Claim C4 — the configuration rewrite -/

theorem except_pure {ε α : Type} (a : α) : (pure a : Except ε α) = Except.ok a := rfl

/-- A top-level line is copied to `new_lines` and changes nothing else. -/
theorem wpaStep_top (t : String) (acc : List String) (ns : Option String)
    (cb : Option (List String)) (l : String) (h : goodTop l = true) :
    wpaStep t ⟨acc, false, ns, cb⟩ l = Except.ok ⟨acc ++ [l], false, ns, cb⟩ := by
  have h1 : pyStartsWith (pyStripWs l) "network=\x7b" = false := by
    simpa [goodTop] using h
  unfold wpaStep
  simp [h1]

/-- A payload line is appended to the bound accumulator. -/
theorem wpaStep_payload (t : String) (acc : List String) (ns : Option String)
    (blk : List String) (l : String) (h : goodPayloadLine l = true) :
    wpaStep t ⟨acc, true, ns, some blk⟩ l =
      Except.ok ⟨acc, true, ns, some (blk ++ [l])⟩ := by
  simp only [goodPayloadLine, Bool.and_eq_true, Bool.not_eq_true'] at h
  obtain ⟨⟨h1, h2⟩, h3⟩ := h
  unfold wpaStep
  simp [h1, h2, h3]

theorem run_payload (t : String) (payload : List String) :
    ∀ (acc : List String) (ns : Option String) (blk : List String),
    payload.all goodPayloadLine = true →
    List.foldlM (wpaStep t) ⟨acc, true, ns, some blk⟩ payload =
      Except.ok ⟨acc, true, ns, some (blk ++ payload)⟩ := by
  induction payload with
  | nil =>
    intro acc ns blk _
    simp [except_pure]
  | cons l rest ih =>
    intro acc ns blk hall
    simp only [List.all_cons, Bool.and_eq_true] at hall
    rw [List.foldlM_cons, wpaStep_payload t acc ns blk l hall.1, except_bind_ok,
      ih acc ns (blk ++ [l]) hall.2, List.append_assoc, List.singleton_append]

/-- Folding one well-formed block from outside a block: the block is
either reproduced byte-for-byte at the end of `new_lines` (its ssid
differs from the target) or dropped entirely (its ssid is the target);
either way the loop ends outside a block with a bound empty accumulator. -/
theorem run_block (t s : String) (payload : List String)
    (hgood : goodItem (CfgItem.block s payload) = true)
    (acc : List String) (ns : Option String) (cb : Option (List String)) :
    List.foldlM (wpaStep t) ⟨acc, false, ns, cb⟩ (itemLines (CfgItem.block s payload)) =
      Except.ok ⟨acc ++ (if s == t then [] else itemLines (CfgItem.block s payload)),
        false, some s, some []⟩ := by
  simp only [goodItem, Bool.and_eq_true, Bool.not_eq_true'] at hgood
  obtain ⟨⟨⟨⟨hs1, hs2⟩, hs3⟩, hs4⟩, hpl⟩ := hgood
  have hs4' : parseSsidVal (ssidLine s) = s := by simpa using hs4
  have hopen : wpaStep t ⟨acc, false, ns, cb⟩ "network=\x7b\n" =
      Except.ok ⟨acc, true, none, cb⟩ := by
    unfold wpaStep
    simp [show pyStartsWith (pyStripWs "network=\x7b\n") "network=\x7b" = true from
      by decide]
  have hssid : wpaStep t ⟨acc, true, none, cb⟩ (ssidLine s) =
      Except.ok ⟨acc, true, some s, some ["network=\x7b\n", ssidLine s]⟩ := by
    unfold wpaStep
    simp [hs1, hs2, hs3, hs4']
  have hclose : ∀ blk : List String,
      wpaStep t ⟨acc, true, some s, some blk⟩ "\x7d\n" =
        Except.ok (if s == t then ⟨acc, false, some s, some []⟩
          else ⟨acc ++ blk ++ ["\x7d\n"], false, some s, some []⟩) := by
    intro blk
    unfold wpaStep
    by_cases hst : s = t
    · subst hst
      simp [show pyStartsWith (pyStripWs "\x7d\n") "network=\x7b" = false from by decide,
        show (pyStripWs "\x7d\n" == "\x7d") = true from by decide]
    · have hne : (some s != some t) = true := by
        simp [bne_iff_ne, hst]
      simp [show pyStartsWith (pyStripWs "\x7d\n") "network=\x7b" = false from by decide,
        show (pyStripWs "\x7d\n" == "\x7d") = true from by decide, hne, hst]
  simp only [itemLines]
  rw [List.foldlM_cons, hopen, except_bind_ok, List.foldlM_cons, hssid,
    except_bind_ok, List.foldlM_append,
    run_payload t payload acc (some s) ["network=\x7b\n", ssidLine s] hpl,
    except_bind_ok, List.foldlM_cons,
    hclose (["network=\x7b\n", ssidLine s] ++ payload), except_bind_ok,
    List.foldlM_nil]
  by_cases hst : (s == t) = true <;> simp [hst, itemLines, except_pure]

theorem keptLines_cons_top (t l : String) (rest : List CfgItem) :
    keptLines t (CfgItem.top l :: rest) = l :: keptLines t rest := by
  simp [keptLines, keepItem, itemLines, List.filter_cons]

theorem keptLines_cons_block (t s : String) (payload : List String)
    (rest : List CfgItem) :
    keptLines t (CfgItem.block s payload :: rest) =
      (if s == t then [] else itemLines (CfgItem.block s payload)) ++
        keptLines t rest := by
  by_cases hst : s = t <;>
    simp [keptLines, keepItem, List.filter_cons, hst, itemLines]

theorem run_items (t : String) (items : List CfgItem) :
    ∀ (acc : List String) (ns : Option String) (cb : Option (List String)),
    items.all goodItem = true →
    ∃ ns' cb', List.foldlM (wpaStep t) ⟨acc, false, ns, cb⟩ (cfgLines items) =
      Except.ok ⟨acc ++ keptLines t items, false, ns', cb'⟩ := by
  induction items with
  | nil =>
    intro acc ns cb _
    exact ⟨ns, cb, by simp [cfgLines, keptLines, except_pure]⟩
  | cons it rest ih =>
    intro acc ns cb hall
    simp only [List.all_cons, Bool.and_eq_true] at hall
    rw [show cfgLines (it :: rest) = itemLines it ++ cfgLines rest from by
      simp [cfgLines]]
    rw [List.foldlM_append]
    cases it with
    | top l =>
      have hstep := wpaStep_top t acc ns cb l hall.1
      obtain ⟨ns', cb', hrest⟩ := ih (acc ++ [l]) ns cb hall.2
      refine ⟨ns', cb', ?_⟩
      rw [show itemLines (CfgItem.top l) = [l] from rfl, List.foldlM_cons, hstep,
        except_bind_ok, List.foldlM_nil, except_pure, except_bind_ok, hrest,
        keptLines_cons_top, List.append_assoc, List.singleton_append]
    | block s payload =>
      have hstep := run_block t s payload hall.1 acc ns cb
      obtain ⟨ns', cb', hrest⟩ := ih
        (acc ++ (if s == t then [] else itemLines (CfgItem.block s payload)))
        (some s) (some []) hall.2
      refine ⟨ns', cb', ?_⟩
      rw [hstep, except_bind_ok, hrest, keptLines_cons_block, List.append_assoc]

/-- C4 amended: on a configuration made of well-formed blocks — open line
exactly `'network={\n'`, ssid line first in the block with a value that
parses back to the block's ssid, payload lines that are not delimiter or
ssid lines — and arbitrary top-level lines, the rewrite reproduces every
block whose ssid differs from the target byte-for-byte and in original
relative order, drops every block whose ssid equals the target, and
appends exactly one new block for the target, so at most one block for
the target ssid exists in the written file.  (On general texts the claim
fails: a line standing before its block's ssid line is silently dropped
and a nonstandard open line is canonicalised — see the counterexample.) -/
theorem update_wpa_preserves (items : List CfgItem) (t pw : String)
    (h : items.all goodItem = true) :
    update_wpa_supplicant (cfgLines items) t pw =
      Except.ok (keptLines t items ++ newBlockLines t pw) := by
  obtain ⟨ns', cb', hrun⟩ := run_items t items [] none none h
  unfold update_wpa_supplicant
  rw [hrun]
  simp

/-- C4 witness: the amended theorem on a concrete two-block
configuration targeting the second block's ssid. -/
theorem update_wpa_preserves_witness :
    update_wpa_supplicant (cfgLines c4items) "Home" "new" =
      Except.ok (keptLines "Home" c4items ++ newBlockLines "Home" "new") :=
  update_wpa_preserves c4items "Home" "new" (by decide)

/-- C4 counterexample: in `c4lines` the block for `"Other"` (whose ssid
differs from the target `"Mine"`) contains a `scan_ssid=1` line before
its ssid line.  The rewrite succeeds but the written file no longer
contains that line — the block is not reproduced byte-for-byte. -/
theorem update_wpa_drops_line_cex :
    (update_wpa_supplicant c4lines "Mine" "pw").toOption = some c4out ∧
    "    scan_ssid=1\n" ∈ c4lines ∧
    "    scan_ssid=1\n" ∉ c4out := by
  decide

/-! ### Claim C6 — properties of the stable descending sort -/

theorem length_insertDesc (x : ScanRec) (l : List ScanRec) :
    (insertDesc x l).length = l.length + 1 := by
  induction l with
  | nil => rfl
  | cons y ys ih =>
    unfold insertDesc
    split
    · simp
    · simpa using ih

theorem length_sortDesc (l : List ScanRec) : (sortDesc l).length = l.length := by
  induction l with
  | nil => rfl
  | cons x xs ih =>
    show (insertDesc x (sortDesc xs)).length = xs.length + 1
    rw [length_insertDesc, ih]

theorem head_insertDesc (x : ScanRec) (l : List ScanRec) :
    (insertDesc x l).head? = some x ∨ (insertDesc x l).head? = l.head? := by
  cases l with
  | nil => left; rfl
  | cons y ys =>
    unfold insertDesc
    split
    · left; rfl
    · right; rfl

theorem sortedDesc_insertDesc (x : ScanRec) (l : List ScanRec) (h : SortedDescBy l) :
    SortedDescBy (insertDesc x l) := by
  induction l with
  | nil => simp [SortedDescBy, insertDesc]
  | cons y ys ih =>
    unfold insertDesc
    split
    · exact List.Chain'.cons (by assumption) h
    · rename_i h1
      rw [SortedDescBy, List.chain'_cons']
      obtain ⟨hhead, htail⟩ := List.chain'_cons'.mp h
      refine ⟨?_, ih htail⟩
      intro b hb
      rcases head_insertDesc x ys with hh | hh
      · rw [hh] at hb
        cases hb
        omega
      · rw [hh] at hb
        exact hhead b hb

theorem sortedDesc_sortDesc (l : List ScanRec) : SortedDescBy (sortDesc l) := by
  induction l with
  | nil => simp [SortedDescBy, sortDesc]
  | cons x xs ih => exact sortedDesc_insertDesc x (sortDesc xs) ih

theorem filter_insertDesc (x : ScanRec) (l : List ScanRec) (q : Int) :
    (insertDesc x l).filter (fun r => qualityKey r == q) =
      (if qualityKey x == q then [x] else []) ++
        l.filter (fun r => qualityKey r == q) := by
  induction l with
  | nil =>
    show [x].filter (fun r => qualityKey r == q) = _
    rw [List.filter_cons]
    split <;> simp_all
  | cons y ys ih =>
    unfold insertDesc
    split
    · rw [List.filter_cons]
      split <;> simp_all
    · rename_i h1
      rw [List.filter_cons, List.filter_cons]
      by_cases hy : qualityKey y == q
      · have hx : ¬(qualityKey x == q) := by
          simp only [beq_iff_eq] at hy ⊢
          omega
        simp [hy, hx, ih]
      · simp [hy, ih]

theorem stable_sortDesc (l : List ScanRec) : StableWith l (sortDesc l) := by
  intro q
  induction l with
  | nil => rfl
  | cons x xs ih =>
    show (insertDesc x (sortDesc xs)).filter _ = _
    rw [filter_insertDesc, ih, List.filter_cons]
    split <;> simp_all

/-! ### Claim C6 — counting the records of well-formed stanzas -/

/-- A body line of a well-formed stanza maps `(networks, current)` to
`(networks, current')` — no flush, no raise — and leaves the recorded
bssid unchanged. -/
theorem scanStep_body (b : String) (hb : goodBodyLine b = true)
    (nets : List ScanRec) (cur : ScanRec) :
    ∃ cur', scanStep (nets, cur) b = Except.ok (nets, cur') ∧
      cur'.bssid = cur.bssid := by
  have hcell : isCellLine (pyStripWs b) = false := by
    unfold goodBodyLine at hb
    simp only [Bool.and_eq_true, Bool.not_eq_true'] at hb
    exact hb.1
  have haborts : lineAborts b = false := by
    unfold goodBodyLine at hb
    simp only [Bool.and_eq_true, Bool.not_eq_true'] at hb
    exact hb.2
  unfold scanStep
  simp only [hcell, Bool.false_eq_true, if_false]
  by_cases hessid : pyContains (pyStripWs b) "ESSID:"
  · simp only [hessid, if_true]
    by_cases he : (pyStripQ ((pySplit (pyStripWs b) "ESSID:").getD 1 "") == "") = true
    · exact ⟨cur, by rw [if_pos he], rfl⟩
    · refine ⟨{ cur with
        ssid := some (pyStripQ ((pySplit (pyStripWs b) "ESSID:").getD 1 "")) }, ?_, rfl⟩
      rw [if_neg he]
  · simp only [hessid, Bool.false_eq_true, if_false]
    by_cases hqual : pyContains (pyStripWs b) "Quality="
    · simp only [hqual, if_true]
      cases hq : qualityResult (pyStripWs b) with
      | error e =>
        exfalso
        unfold lineAborts at haborts
        simp only [hcell, Bool.false_eq_true, if_false, hessid, hqual, if_true,
          hq] at haborts
        exact absurd haborts (by decide)
      | ok oq =>
        cases oq with
        | none => exact ⟨cur, rfl, rfl⟩
        | some qv => exact ⟨{ cur with quality := some qv }, rfl, rfl⟩
    · simp only [hqual, Bool.false_eq_true, if_false]
      by_cases henc : pyContains (pyStripWs b) "Encryption key:"
      · simp only [henc, if_true]
        exact ⟨_, rfl, rfl⟩
      · simp only [henc, Bool.false_eq_true, if_false]
        exact ⟨cur, rfl, rfl⟩

/-- Folding the body of a well-formed stanza never flushes and keeps the
bssid. -/
theorem run_body (body : List String) : ∀ (nets : List ScanRec) (cur : ScanRec),
    body.all goodBodyLine = true →
    ∃ cur', List.foldlM scanStep (nets, cur) body = Except.ok (nets, cur') ∧
      cur'.bssid = cur.bssid := by
  induction body with
  | nil => exact fun nets cur _ => ⟨cur, rfl, rfl⟩
  | cons b rest ih =>
    intro nets cur hb
    simp only [List.all_cons, Bool.and_eq_true] at hb
    obtain ⟨cur1, hstep, hbss1⟩ := scanStep_body b hb.1 nets cur
    obtain ⟨cur2, hrest, hbss2⟩ := ih nets cur1 hb.2
    refine ⟨cur2, ?_, by rw [hbss2, hbss1]⟩
    rw [List.foldlM_cons, hstep, except_bind_ok, hrest]

/-- Folding one well-formed stanza flushes the previous accumulator (if
non-empty) and ends in a non-empty accumulator. -/
theorem run_stanza (s : StanzaL) (hs : goodStanza s = true)
    (nets : List ScanRec) (cur : ScanRec) :
    ∃ cur', List.foldlM scanStep (nets, cur) (stanzaLines s) =
      Except.ok ((if recNonEmpty cur then nets ++ [cur] else nets), cur') ∧
      recNonEmpty cur' = true := by
  unfold goodStanza at hs
  simp only [Bool.and_eq_true] at hs
  obtain ⟨⟨hcell, hget⟩, hbody⟩ := hs
  obtain ⟨v, hv⟩ := Option.isSome_iff_exists.mp hget
  have hcellstep : scanStep (nets, cur) s.cell =
      Except.ok ((if recNonEmpty cur then nets ++ [cur] else nets),
        { bssid := some v }) := by
    unfold scanStep
    simp only [hcell, if_true, hv]
  obtain ⟨cur', hrest, hbss⟩ :=
    run_body s.body (if recNonEmpty cur then nets ++ [cur] else nets)
      { bssid := some v } hbody
  refine ⟨cur', ?_, ?_⟩
  · rw [stanzaLines, List.foldlM_cons, hcellstep, except_bind_ok, hrest]
  · unfold recNonEmpty
    rw [hbss]
    simp

/-- Folding any sequence of well-formed stanzas succeeds and increases
the flushed-record count by exactly the number of stanzas. -/
theorem run_stanzas (ss : List StanzaL) : ∀ (nets : List ScanRec) (cur : ScanRec),
    ss.all goodStanza = true →
    ∃ nets' cur',
      List.foldlM scanStep (nets, cur) ((ss.map stanzaLines).flatten) =
        Except.ok (nets', cur') ∧
      nets'.length + (if recNonEmpty cur' then 1 else 0) =
        nets.length + (if recNonEmpty cur then 1 else 0) + ss.length := by
  induction ss with
  | nil => exact fun nets cur _ => ⟨nets, cur, rfl, by simp⟩
  | cons s rest ih =>
    intro nets cur hs
    simp only [List.all_cons, Bool.and_eq_true] at hs
    obtain ⟨cur1, hstanza, hne1⟩ := run_stanza s hs.1 nets cur
    obtain ⟨nets2, cur2, hrest, hcount⟩ :=
      ih (if recNonEmpty cur then nets ++ [cur] else nets) cur1 hs.2
    refine ⟨nets2, cur2, ?_, ?_⟩
    · rw [List.map_cons, List.flatten_cons, List.foldlM_append, hstanza, except_bind_ok,
        hrest]
    · rw [hcount, hne1]
      by_cases hc : recNonEmpty cur <;> simp [hc] <;> omega

/-- C6: a scan output made of `N` well-formed stanzas yields exactly `N`
records, sorted by non-increasing quality (absent quality counting as 0),
with records of equal quality kept in stanza-encounter order (the order
of `scanRecords`, the pre-sort accumulation). -/
theorem scan_wellformed_stanzas (ss : List StanzaL) (h : ss.all goodStanza = true) :
    (scan_networks ((ss.map stanzaLines).flatten)).length = ss.length ∧
    SortedDescBy (scan_networks ((ss.map stanzaLines).flatten)) ∧
    StableWith (scanRecords ((ss.map stanzaLines).flatten))
      (scan_networks ((ss.map stanzaLines).flatten)) := by
  obtain ⟨nets', cur', hrun, hcount⟩ := run_stanzas ss [] {} h
  have hrec : (scanRecords ((ss.map stanzaLines).flatten)).length = ss.length := by
    unfold scanRecords
    rw [hrun]
    show (if recNonEmpty cur' = true then nets' ++ [cur'] else nets').length = ss.length
    rw [show recNonEmpty ⟨none, none, none, none⟩ = false from rfl] at hcount
    simp only [List.length_nil, Nat.zero_add, Bool.false_eq_true, if_false] at hcount
    by_cases hc : recNonEmpty cur' = true <;> simp only [hc, if_true, Bool.false_eq_true,
      if_false, List.length_append, List.length_cons, List.length_nil] at hcount ⊢ <;> omega
  refine ⟨?_, sortedDesc_sortDesc _, stable_sortDesc _⟩
  rw [scan_networks, length_sortDesc, hrec]

/-- C6 witness: two well-formed stanzas with a quality tie — the scan
returns both records, descending and in encounter order. -/
theorem scan_wellformed_stanzas_witness :
    (scan_networks
      ((([⟨"Cell 01 - Address: AA", ["          ESSID:\"Home\"",
          "          Quality=60/70  Signal level=-40 dBm"]⟩,
         ⟨"Cell 02 - Address: BB", ["          ESSID:\"Work\"",
          "          Quality=60/70  Signal level=-40 dBm"]⟩] :
        List StanzaL).map stanzaLines).flatten)).length = 2 := by
  have h := scan_wellformed_stanzas
    [⟨"Cell 01 - Address: AA", ["          ESSID:\"Home\"",
      "          Quality=60/70  Signal level=-40 dBm"]⟩,
     ⟨"Cell 02 - Address: BB", ["          ESSID:\"Work\"",
      "          Quality=60/70  Signal level=-40 dBm"]⟩] (by decide)
  exact h.1

/-- C1 witness: the amended theorem applied from the Disconnected state
with a poll trace whose first poll already matches. -/
theorem connect_poll_outcome_witness :
    connect_to_network dcState
      { stopEnv := stopEnvOk, wpaOk := true, svcRaise := false,
        polls := fun _ => { ssid := some "Home", ip := some "10.0.0.9", signal := none } }
      "Home" "pw" =
      ({ dcState with
         connected := true, current_ssid := some "Home",
         ip_address := some "10.0.0.9",
         config := { cfg0 with ssid := "Home", password := "pw" } }, true) := by
  have h := connect_poll_outcome dcState
    { stopEnv := stopEnvOk, wpaOk := true, svcRaise := false,
      polls := fun _ => { ssid := some "Home", ip := some "10.0.0.9", signal := none } }
    "Home" "pw" rfl rfl
  have h0 := h.1 0 (by decide)
  exact h0

end Vidbox
